import Mathlib

set_option autoImplicit false

/-!
Shallow embedding of the device-code OAuth authenticator in
src/python/trakt_instance.py and of the table-sync script
src/scripts/sync_db.py, together with theorems settling the claims
about them.

The authenticator (class TraktInstance) keeps
  - an in-memory authorization (self.authorization, a Python value that is
    either None or an opaque token payload),
  - an on-disk token file (auth_token.json),
  - a condition variable is_authenticating whose lock doubles as the
    "handshake in flight" guard.
The payload delivered by the poller is opaque to the code, so it is a type
parameter P throughout.
-/

namespace TraktInstance

/-- Content of the on-disk token file. The authenticator only ever writes
the file through json.dump of the in-memory authorization, so a written
file holds either the JSON text null (authorization was None) or the JSON
serialization of a payload. An unparseable file (for example an empty
file) is modeled by invalid: json.load raises on it. absent models a
missing file. Two file contents are byte-for-byte equal exactly when they
are equal in this type. -/
inductive FileContent (P : Type) where
  | absent
  | json (v : Option P)
  | invalid
  deriving DecidableEq, Repr

/-- Terminal events a device-authentication poller can deliver
(trakt_instance.py lines 71-75 register one handler per event). -/
inductive AuthEvent (P : Type) where
  | aborted
  | authenticated (authorization : P)
  | expired
  deriving DecidableEq, Repr

/-- State of one TraktInstance relevant to the handshake claims.
is_authenticating models whether the lock of the condition variable of the
same name is currently held (acquire succeeded and no release happened).
codesRequested counts calls to Trakt[oauth/device].code() and
pollersStarted counts poller.start() calls, so that theorems can state
that a rejected authenticate() call performs neither. -/
structure State (P : Type) where
  authorization : Option P
  tokenFile : FileContent P
  is_authenticating : Bool
  codesRequested : Nat
  pollersStarted : Nat
  deriving DecidableEq, Repr

variable {P : Type}

/-- trakt_instance.py lines 153-165: on_aborted prints, then acquires the
condition, notifies all waiters and releases. It does not touch
self.authorization or the token file. -/
def on_aborted (s : State P) : State P :=
  s

/-- trakt_instance.py lines 167-184: on_authenticated acquires the
condition, stores the delivered authorization in self.authorization,
notifies and releases. It does not write the token file itself. -/
def on_authenticated (s : State P) (authorization : P) : State P :=
  { s with authorization := some authorization }

/-- trakt_instance.py lines 186-194: on_expired prints, notifies and
releases; no state field changes. -/
def on_expired (s : State P) : State P :=
  s

/-- trakt_instance.py lines 196-204: on_poll invokes the supplied callback
with True (continue polling). -/
def on_poll {β : Type} (callback : Bool → β) : β :=
  callback true

/-- trakt_instance.py lines 206-210: on_token_refreshed stores the new
authorization in memory and prints; it does not call store_auth. -/
def on_token_refreshed (s : State P) (authorization : P) : State P :=
  { s with authorization := some authorization }

/-- trakt_instance.py lines 212-214: store_auth overwrites the token file
with json.dump(self.authorization): the file afterwards holds the JSON
serialization of the current in-memory authorization (null when it is
None). -/
def store_auth (s : State P) : State P :=
  { s with tokenFile := FileContent.json s.authorization }

/-- trakt_instance.py lines 216-220: read_auth returns None when the file
does not exist, otherwise json.load of its content; json.load raises
(JSONDecodeError) on an empty or malformed file, returns None on the JSON
text null, and the stored payload otherwise. -/
def read_auth (file : FileContent P) : Except String (Option P) :=
  match file with
  | FileContent.absent => Except.ok none
  | FileContent.json v => Except.ok v
  | FileContent.invalid => Except.error "JSONDecodeError"

/-- Dispatch of the terminal event delivered by the poller to the handler
registered for it (trakt_instance.py lines 71-75). The poller delivers
exactly one terminal event per handshake. -/
def pollerDeliver (s : State P) (e : AuthEvent P) : State P :=
  match e with
  | AuthEvent.aborted => on_aborted s
  | AuthEvent.authenticated p => on_authenticated s p
  | AuthEvent.expired => on_expired s

/-- trakt_instance.py lines 59-83: authenticate, as an input/output
summary of one complete call. If the condition lock cannot be acquired
without blocking it prints and returns False. Otherwise it requests a
device code, starts the poller, waits on the condition until a handler for
the terminal event has run and notified, then unconditionally calls
store_auth and returns the value returned by Condition.wait, which with no
timeout is the constant True. The final is_authenticating is true because
wait reacquires the lock before returning and authenticate never releases
it. This summary does not show the lock state DURING the call:
Condition.wait releases the lock for the whole blocking window, which is
modeled by the phase functions tryAcquire, requestCodeAndStartPoller and
enterWait below. The terminal event the poller will deliver is the
parameter e. -/
def authenticate (s : State P) (e : AuthEvent P) : Bool × State P :=
  if s.is_authenticating then
    (false, s)
  else
    let s1 : State P :=
      { s with is_authenticating := true,
               codesRequested := s.codesRequested + 1,
               pollersStarted := s.pollersStarted + 1 }
    let s2 := pollerDeliver s1 e
    (true, store_auth s2)

/-- trakt_instance.py line 60: is_authenticating.acquire(blocking=False)
as attempted by a thread that does not already hold the lock. The
underlying lock of a Condition is an RLock; an acquire by a thread other
than the holder fails without blocking while the lock is held and succeeds
otherwise. (A re-acquire by the holding thread itself would succeed by
reentrancy; the concurrency claims are about calls from other threads.) -/
def tryAcquire (s : State P) : Option (State P) :=
  if s.is_authenticating then none
  else some { s with is_authenticating := true }

/-- trakt_instance.py lines 64-78: request a device code, print it, build
the poller and start it. -/
def requestCodeAndStartPoller (s : State P) : State P :=
  { s with codesRequested := s.codesRequested + 1,
           pollersStarted := s.pollersStarted + 1 }

/-- trakt_instance.py line 81, entry into Condition.wait: wait RELEASES
the underlying lock before blocking and only reacquires it when woken, so
for the whole polling window the lock is free. -/
def enterWait (s : State P) : State P :=
  { s with is_authenticating := false }

/-- trakt_instance.py lines 59-81 up to the blocking point: the prefix of
an authenticate call another thread can observe while the call is in
flight. Returns false with the state untouched when the non-blocking
acquire fails (the call prints and returns False at line 62), and true
with the during-wait state (device code requested, poller started, lock
released by wait) when the call proceeds past the lock acquisition. -/
def authenticateEntry (s : State P) : Bool × State P :=
  match tryAcquire s with
  | none => (false, s)
  | some s1 => (true, enterWait (requestCodeAndStartPoller s1))

/-- Value of show_obj in the add and remove methods, as produced by
do_lookup (Trakt search lookup: a media object, a list of media objects,
or None) or do_query. M is the opaque type of media objects. Any non-None
non-list Python object takes the same control-flow path as a single media
object in the methods below. -/
inductive LookupObj (M : Type) where
  | pyNone
  | pyList (xs : List M)
  | media (m : M)
  deriving DecidableEq, Repr

/-- Return value of the add methods as far as the claims observe it:
the literal empty dict, the response of a Trakt add call, or the implicit
Python None of a fall-through. -/
inductive MethodResult where
  | emptyDict
  | apiResponse
  | pyNone
  deriving DecidableEq, Repr

/-- A mutating request issued to the external service by the add methods:
a sync/watchlist add of one media object or a sync/history add of a list
of episode objects (E the opaque type of episode objects). -/
inductive Request (M E : Type) where
  | watchlistAdd (item : M)
  | historyAdd (episodes : List E)
  deriving DecidableEq, Repr

/-- trakt_instance.py lines 232-246: add_show_to_watchlist. After the
lookup or query produced show_obj, an empty list yields return of the
empty dict, a nonempty list is replaced by its first element, a None
show_obj yields the empty dict, and otherwise a sync/watchlist add request
is issued and its response returned. The second component collects the
mutating requests issued. -/
def add_show_to_watchlist {M E : Type} (show_obj : LookupObj M) :
    MethodResult × List (Request M E) :=
  match show_obj with
  | LookupObj.pyList [] => (MethodResult.emptyDict, [])
  | LookupObj.pyList (x :: _) => (MethodResult.apiResponse, [Request.watchlistAdd x])
  | LookupObj.pyNone => (MethodResult.emptyDict, [])
  | LookupObj.media m => (MethodResult.apiResponse, [Request.watchlistAdd m])

/-- Python truthiness of an int-or-None parameter: None and 0 are falsy. -/
def truthy (n : Option Nat) : Bool :=
  match n with
  | some k => k != 0
  | none => false

/-- trakt_instance.py lines 260-276: the body of add_episode_to_watched
after show_obj has been resolved to a single media object. epi models the
response of Trakt shows episode for the given season and episode (None
when there is no such episode; objects are truthy); seas models the
response of Trakt shows season (None or a list; both None and the empty
list are falsy). When neither branch fires the method falls through and
returns Python None. -/
def addEpisodeBody {M E : Type} (_m : M) (season episode : Option Nat)
    (epi : Option E) (seas : Option (List E)) :
    MethodResult × List (Request M E) :=
  if truthy season && truthy episode then
    match epi with
    | none => (MethodResult.emptyDict, [])
    | some e => (MethodResult.apiResponse, [Request.historyAdd [e]])
  else if truthy season then
    match seas with
    | none => (MethodResult.emptyDict, [])
    | some [] => (MethodResult.emptyDict, [])
    | some es => (MethodResult.apiResponse, [Request.historyAdd es])
  else
    (MethodResult.pyNone, [])

/-- trakt_instance.py lines 248-276: add_episode_to_watched. A None
show_obj yields the empty dict (line 253), an empty list yields the empty
dict (line 256), a nonempty list is replaced by its first element, and
then the season and episode branches run. -/
def add_episode_to_watched {M E : Type} (show_obj : LookupObj M)
    (season episode : Option Nat) (epi : Option E) (seas : Option (List E)) :
    MethodResult × List (Request M E) :=
  match show_obj with
  | LookupObj.pyNone => (MethodResult.emptyDict, [])
  | LookupObj.pyList [] => (MethodResult.emptyDict, [])
  | LookupObj.pyList (x :: _) => addEpisodeBody x season episode epi seas
  | LookupObj.media m => addEpisodeBody m season episode epi seas

/-- Outcome of TraktInstance.__init__ (trakt_instance.py lines 41-57) as
far as the token file is concerned: the in-memory authorization after
read_auth, and whether __init__ went on to call self.authenticate()
(it does exactly when read_auth returned None). A JSONDecodeError from
read_auth propagates out of the constructor. -/
structure InitResult (P : Type) where
  authorization : Option P
  handshakeStarted : Bool
  deriving DecidableEq, Repr

/-- trakt_instance.py lines 54-57: self.authorization = self.read_auth();
if self.authorization is None: self.authenticate(). -/
def init (file : FileContent P) : Except String (InitResult P) :=
  match read_auth file with
  | Except.error e => Except.error e
  | Except.ok a => Except.ok { authorization := a, handshakeStarted := a.isNone }

end TraktInstance

/-!
Python dict model. Python dicts keep insertion order; assigning to an
existing key overwrites its value in place, assigning to a fresh key
appends. Both read_credentials (trakt_instance.py line 34) and the
dict comprehensions of sync_db (sync_db.py lines 49-50) use it.
-/

/-- One assignment d[k] = v on a Python dict represented as an ordered
association list without duplicate keys: an existing key keeps its
position and gets the new value, a fresh key is appended. -/
def dictInsert : List (String × String) → String → String →
    List (String × String)
  | [], k, v => [(k, v)]
  | p :: ds, k, v => if p.1 == k then (k, v) :: ds else p :: dictInsert ds k v

/-- A dict built from a sequence of assignments, later pairs overwriting
earlier ones (the dict comprehensions of sync_db.py lines 49-50). -/
def pyDict (l : List (String × String)) : List (String × String) :=
  l.foldl (fun d kv => dictInsert d kv.1 kv.2) []

/-- trakt_instance.py lines 27-35: read_credentials iterates over the
lines of the credentials file; for each line it computes
tmp = line.split(sep) with sep the equals sign, and when len(tmp) > 1
takes key, val = [x.strip() for x in tmp][:2] and assigns
credentials[key] = val. Lines whose split has length 1 (no equals sign)
are skipped. The match on the two-element prefix is exhaustive in the
branch because len(tmp) > 1 there; the fallback arm is unreachable. -/
def read_credentials (lines : List String) : List (String × String) :=
  lines.foldl
    (fun credentials line =>
      let tmp := line.splitOn "="
      if tmp.length > 1 then
        match (tmp.map String.trim).take 2 with
        | [key, val] => dictInsert credentials key val
        | _ => credentials
      else
        credentials)
    []

/-- Modelled from the claim wording, for comparison with read_credentials:
a line containing at least one equals sign contributes the
whitespace-stripped text before the first equals sign as key and the
whitespace-stripped text between the first and the second as value; other
lines contribute nothing. -/
def credLineSpec (line : String) : Option (String × String) :=
  let parts := line.splitOn "="
  if h : 1 < parts.length then
    some ((parts.get ⟨0, by omega⟩).trim, (parts.get ⟨1, h⟩).trim)
  else
    none

/-- The claim-side credentials map: fold the per-line rule over the file,
later lines with the same key overwriting earlier ones. -/
def credentialsSpec (lines : List String) : List (String × String) :=
  lines.foldl
    (fun d line =>
      match credLineSpec line with
      | some kv => dictInsert d kv.1 kv.2
      | none => d)
    []

/-!
Embedding of sync_db.py. Endpoints 0 and 1 are the two services
(www.ddboline.net and cloud.ddboline.net). Last-modified values arrive as
JSON strings and are compared with the Python string comparison operator,
which is lexicographic by code point, as is the String order of Lean.
The observable behavior is the sequence of HTTP data requests the script
issues per table; authentication requests are common to every run and
omitted. Python iterates the table names in unspecified set order; the
claims are per table, so the model fixes the insertion order of the first
dict restricted to the keys of the second.
-/

namespace SyncDb

/-- One HTTP data request issued by sync_db. get endpoint table ts is the
GET of list/table?start_timestamp=ts at the given endpoint; post sends the
fetched records to list/table at the other endpoint wrapped under the
payload key taken from entry_map. -/
inductive SyncAction where
  | get (endpoint : Nat) (table : String) (start_timestamp : String)
  | post (endpoint : Nat) (payloadKey : String) (table : String)
  deriving DecidableEq, Repr

/-- sync_db.py lines 21-26. -/
def entry_map : List (String × String) :=
  [("imdb_episodes", "episodes"),
   ("imdb_ratings", "shows"),
   ("movie_collection", "collection"),
   ("movie_queue", "queue")]

/-- sync_db.py line 28: dry_run is hard-coded to True and never changed. -/
def dry_run : Bool := true

/-- Table of a request. -/
def tableOf (a : SyncAction) : String :=
  match a with
  | SyncAction.get _ t _ => t
  | SyncAction.post _ _ t => t

/-- sync_db.py lines 60-70: the first if block of the loop body. When
mod0 > mod1 the script GETs from endpoint 0 the records newer than mod1,
and only when dry_run is false looks up entry_map[table] (a KeyError when
the table is not in entry_map) and POSTs them to endpoint 1. -/
def syncActs0 (dryRun : Bool) (table mod0 mod1 : String) :
    Except String (List SyncAction) :=
  if mod1 < mod0 then
    if dryRun then
      Except.ok [SyncAction.get 0 table mod1]
    else
      match entry_map.lookup table with
      | some key => Except.ok [SyncAction.get 0 table mod1,
                               SyncAction.post 1 key table]
      | none => Except.error "KeyError"
  else
    Except.ok []

/-- sync_db.py lines 71-81: the second if block, symmetric to the first
with the endpoints exchanged. -/
def syncActs1 (dryRun : Bool) (table mod0 mod1 : String) :
    Except String (List SyncAction) :=
  if mod0 < mod1 then
    if dryRun then
      Except.ok [SyncAction.get 1 table mod0]
    else
      match entry_map.lookup table with
      | some key => Except.ok [SyncAction.get 1 table mod0,
                               SyncAction.post 0 key table]
      | none => Except.error "KeyError"
  else
    Except.ok []

/-- The full loop body of sync_db for one table (sync_db.py lines 54-81):
both if blocks run in order; their guards are mutually exclusive. -/
def syncTable (dryRun : Bool) (table mod0 mod1 : String) :
    Except String (List SyncAction) :=
  match syncActs0 dryRun table mod0 mod1 with
  | Except.error e => Except.error e
  | Except.ok a0 =>
    match syncActs1 dryRun table mod0 mod1 with
    | Except.error e => Except.error e
    | Except.ok a1 => Except.ok (a0 ++ a1)

/-- The for loop of sync_db.py lines 54-81 over a list of table names,
reading each timestamp from the two dicts. For tables drawn from the
intersection both lookups succeed; the default is never reached there. -/
def syncTables (dryRun : Bool) (d0 d1 : List (String × String)) :
    List String → Except String (List SyncAction)
  | [] => Except.ok []
  | t :: ts =>
    match syncTable dryRun t ((d0.lookup t).getD "") ((d1.lookup t).getD "") with
    | Except.error e => Except.error e
    | Except.ok a =>
      match syncTables dryRun d0 d1 ts with
      | Except.error e => Except.error e
      | Except.ok rest => Except.ok (a ++ rest)

/-- sync_db.py lines 31-83: build the two table-to-timestamp dicts
(lines 46-50), intersect their key sets (line 52) and run the loop body
for every common table. dryRun is the module-level dry_run variable,
passed explicitly here. -/
def sync_db (dryRun : Bool) (lm0 lm1 : List (String × String)) :
    Except String (List SyncAction) :=
  let d0 := pyDict lm0
  let d1 := pyDict lm1
  let tables := (d0.map Prod.fst).filter
    (fun t => (d1.map Prod.fst).contains t)
  syncTables dryRun d0 d1 tables

/-- True exactly on post requests: the only requests that write data. -/
def SyncAction.isPost (a : SyncAction) : Bool :=
  match a with
  | SyncAction.post _ _ _ => true
  | _ => false

end SyncDb

namespace TraktInstance

variable {P : Type}

/-- Claim C1, counterexample. The claim states that when the poller
reports aborted, the token file is byte-for-byte unchanged from before the
call, for every initial file content and in-memory state. At the concrete
state with authorization some 0 and an absent token file, authenticate
with the aborted event leaves a token file present (store_auth runs
unconditionally at line 82), so the file is not unchanged; also the call
returns True, the same value as on success, not a distinct Aborted
failure. -/
theorem c1_counterexample :
    (authenticate (⟨some 0, FileContent.absent, false, 0, 0⟩ : State Nat)
        AuthEvent.aborted).2.tokenFile ≠ FileContent.absent ∧
    (authenticate (⟨some 0, FileContent.absent, false, 0, 0⟩ : State Nat)
        AuthEvent.aborted).1 = true := by
  decide

/-- Claim C1, amended. When the lock is free and the poller reports
aborted or expired, authenticate returns True (the bare return value of
Condition.wait; the code does not distinguish the outcomes), the
in-memory authorization is unchanged by the handshake, and the token file
is overwritten with the JSON serialization of that unchanged in-memory
authorization; it therefore coincides with its prior content only when
that content already equaled this serialization. -/
theorem c1_aborted_expired (s : State P) (e : AuthEvent P)
    (hlock : s.is_authenticating = false)
    (hterm : e = AuthEvent.aborted ∨ e = AuthEvent.expired) :
    (authenticate s e).1 = true ∧
    (authenticate s e).2.authorization = s.authorization ∧
    (authenticate s e).2.tokenFile = FileContent.json s.authorization := by
  rcases hterm with h | h <;> subst h <;>
    simp [authenticate, hlock, pollerDeliver, on_aborted, on_expired, store_auth]

/-- Claim C1, witness for the amended theorem at a concrete state. -/
theorem c1_aborted_expired_witness :
    (authenticate (⟨some 3, FileContent.json none, false, 0, 0⟩ : State Nat)
        AuthEvent.aborted).1 = true ∧
    (authenticate (⟨some 3, FileContent.json none, false, 0, 0⟩ : State Nat)
        AuthEvent.aborted).2.authorization = some 3 ∧
    (authenticate (⟨some 3, FileContent.json none, false, 0, 0⟩ : State Nat)
        AuthEvent.aborted).2.tokenFile = FileContent.json (some 3) :=
  c1_aborted_expired ⟨some 3, FileContent.json none, false, 0, 0⟩
    AuthEvent.aborted rfl (Or.inl rfl)

/-- Claim C2. When the lock is free and the poller reports authenticated
with a payload, authenticate returns True (success), the in-memory
authorization equals the payload, and the token file afterwards parses
(read_auth, the same reader the constructor uses) to exactly that
payload, for every payload and every prior token-file content. -/
theorem c2_authenticated_persists (s : State P) (p : P)
    (hlock : s.is_authenticating = false) :
    (authenticate s (AuthEvent.authenticated p)).1 = true ∧
    (authenticate s (AuthEvent.authenticated p)).2.authorization = some p ∧
    read_auth (authenticate s (AuthEvent.authenticated p)).2.tokenFile =
      Except.ok (some p) := by
  simp [authenticate, hlock, pollerDeliver, on_authenticated, store_auth, read_auth]

/-- Claim C2, witness at a concrete state with a nonempty prior file. -/
theorem c2_authenticated_persists_witness :
    (authenticate (⟨none, FileContent.json (some 9), false, 0, 0⟩ : State Nat)
        (AuthEvent.authenticated 4)).1 = true ∧
    (authenticate (⟨none, FileContent.json (some 9), false, 0, 0⟩ : State Nat)
        (AuthEvent.authenticated 4)).2.authorization = some 4 ∧
    read_auth (authenticate (⟨none, FileContent.json (some 9), false, 0, 0⟩ :
        State Nat) (AuthEvent.authenticated 4)).2.tokenFile =
      Except.ok (some 4) :=
  c2_authenticated_persists ⟨none, FileContent.json (some 9), false, 0, 0⟩ 4 rfl

/-- Claim C3, counterexample. The claim states that every authenticate
call made while another handshake is in flight is rejected, without
requesting a device code and without starting a poller, and that at most
one concurrent call proceeds past the lock acquisition. From the concrete
idle state, a first call proceeds past the acquisition and blocks in
Condition.wait, which releases the lock for the whole polling window; a
second call arriving during that window therefore also passes the
non-blocking acquire (its first component is true as well), requests a
second device code and starts a second poller (both counters reach 2):
two handshakes are in flight at once. -/
theorem c3_counterexample :
    (authenticateEntry (⟨none, FileContent.absent, false, 0, 0⟩ :
        State Nat)).1 = true ∧
    (authenticateEntry (authenticateEntry
        (⟨none, FileContent.absent, false, 0, 0⟩ : State Nat)).2).1 = true ∧
    (authenticateEntry (authenticateEntry
        (⟨none, FileContent.absent, false, 0, 0⟩ :
          State Nat)).2).2.codesRequested = 2 ∧
    (authenticateEntry (authenticateEntry
        (⟨none, FileContent.absent, false, 0, 0⟩ :
          State Nat)).2).2.pollersStarted = 2 := by
  decide

/-- Claim C3, amended. A concurrent authenticate call is rejected -
returns False immediately with the state untouched, so no device code
requested and no poller started, and likewise the whole-call summary
returns False for every terminal event - only when it arrives while the
condition lock is actually held by the other thread: in the window between
that thread acquiring the lock and entering Condition.wait, or after its
call returned (the lock is never released after wait returns). Because
Condition.wait releases the lock for the whole polling window, a call
arriving while the first call is blocked waiting instead proceeds past the
lock acquisition and starts a second handshake, with a second device code
and a second poller: the at-most-one-concurrent-handshake invariant does
not hold of the program. -/
theorem c3_rejected_only_while_lock_held (s : State P)
    (hlock : s.is_authenticating = true) :
    (authenticateEntry s = (false, s) ∧
     (authenticateEntry s).2.codesRequested = s.codesRequested ∧
     (authenticateEntry s).2.pollersStarted = s.pollersStarted ∧
     ∀ e : AuthEvent P, authenticate s e = (false, s)) ∧
    ∀ s2 : State P, s2.is_authenticating = false →
      (authenticateEntry s2).1 = true ∧
      (authenticateEntry s2).2.is_authenticating = false ∧
      (authenticateEntry (authenticateEntry s2).2).1 = true ∧
      (authenticateEntry (authenticateEntry s2).2).2.codesRequested =
        s2.codesRequested + 2 ∧
      (authenticateEntry (authenticateEntry s2).2).2.pollersStarted =
        s2.pollersStarted + 2 := by
  constructor
  · refine ⟨?_, ?_, ?_, fun e => ?_⟩ <;>
      simp [authenticateEntry, tryAcquire, hlock, authenticate]
  · intro s2 h2
    refine ⟨?_, ?_, ?_, ?_, ?_⟩ <;>
      simp [authenticateEntry, tryAcquire, h2, enterWait,
        requestCodeAndStartPoller]

/-- Claim C3, witness for the amended theorem at a concrete state with the
lock held. -/
theorem c3_rejected_only_while_lock_held_witness :
    ((authenticateEntry (⟨none, FileContent.absent, true, 1, 1⟩ : State Nat) =
        (false, (⟨none, FileContent.absent, true, 1, 1⟩ : State Nat))) ∧
      (authenticateEntry (⟨none, FileContent.absent, true, 1, 1⟩ :
        State Nat)).2.codesRequested = 1 ∧
      (authenticateEntry (⟨none, FileContent.absent, true, 1, 1⟩ :
        State Nat)).2.pollersStarted = 1 ∧
      ∀ e : AuthEvent Nat,
        authenticate (⟨none, FileContent.absent, true, 1, 1⟩ : State Nat) e =
          (false, (⟨none, FileContent.absent, true, 1, 1⟩ : State Nat))) ∧
    ∀ s2 : State Nat, s2.is_authenticating = false →
      (authenticateEntry s2).1 = true ∧
      (authenticateEntry s2).2.is_authenticating = false ∧
      (authenticateEntry (authenticateEntry s2).2).1 = true ∧
      (authenticateEntry (authenticateEntry s2).2).2.codesRequested =
        s2.codesRequested + 2 ∧
      (authenticateEntry (authenticateEntry s2).2).2.pollersStarted =
        s2.pollersStarted + 2 :=
  c3_rejected_only_while_lock_held
    ⟨none, FileContent.absent, true, 1, 1⟩ rfl

/-- Claim C4, counterexample. The claim states that after
on_token_refreshed runs with a new payload the on-disk token file has been
overwritten with that payload. At the concrete state with an absent token
file, on_token_refreshed with payload 7 leaves the file absent: the hook
(trakt_instance.py lines 206-210) never calls store_auth. -/
theorem c4_counterexample :
    (on_token_refreshed (⟨none, FileContent.absent, false, 0, 0⟩ : State Nat)
        7).tokenFile ≠ FileContent.json (some 7) := by
  decide

/-- Claim C4, amended. After on_token_refreshed runs, the in-memory
current authorization equals the new payload, but the token file is left
exactly as it was: the refresh hook does not re-persist; only the next
store_auth (run by a full authenticate handshake) writes the file. -/
theorem c4_refresh_memory_only (s : State P) (p : P) :
    (on_token_refreshed s p).authorization = some p ∧
    (on_token_refreshed s p).tokenFile = s.tokenFile := by
  simp [on_token_refreshed]

/-- Claim C5, counterexample. The claim states that an empty token file at
construction makes the constructor start a handshake. An empty file is
unparseable JSON, so read_auth raises JSONDecodeError and the constructor
propagates it instead of starting a handshake. -/
theorem c5_counterexample :
    init (FileContent.invalid : FileContent Nat) =
      Except.error "JSONDecodeError" := by
  rfl

/-- Claim C5, amended. At construction: a missing token file makes the
constructor call authenticate (start a handshake) with no in-memory
authorization; a file holding a valid non-null authorization starts no
handshake and the stored value becomes the current in-memory
authorization; a file holding JSON null also starts a handshake; an
unparseable (for example empty) file makes the constructor raise the JSON
parse error, starting no handshake. -/
theorem c5_startup (p : P) :
    init (FileContent.absent : FileContent P) =
      Except.ok { authorization := none, handshakeStarted := true } ∧
    init (FileContent.json (some p)) =
      Except.ok { authorization := some p, handshakeStarted := false } ∧
    init (FileContent.json (none : Option P)) =
      Except.ok { authorization := none, handshakeStarted := true } ∧
    init (FileContent.invalid : FileContent P) =
      Except.error "JSONDecodeError" := by
  refine ⟨rfl, rfl, rfl, rfl⟩

/-- Claim C7. The on_poll handler always invokes the supplied callback
with True: for every callback it is applied to the argument true, and the
recording callback shows the full list of arguments it is invoked with is
the single element true, never false. -/
theorem c7_on_poll_always_continues :
    (∀ (β : Type) (cb : Bool → β), on_poll cb = cb true) ∧
    on_poll (fun b => [b]) = [true] :=
  ⟨fun _ _ => rfl, rfl⟩

/-- Claim C8. Every authenticate call that acquires the lock overwrites
the token file after the wait returns, no matter which terminal event
occurred: the file afterwards is the JSON serialization of the in-memory
authorization; on aborted or expired the authorization is whatever it was
before the call, so if none existed the file holds JSON null. -/
theorem c8_unconditional_store (s : State P) (e : AuthEvent P)
    (hlock : s.is_authenticating = false) :
    (authenticate s e).2.tokenFile =
      FileContent.json ((authenticate s e).2.authorization) ∧
    ((e = AuthEvent.aborted ∨ e = AuthEvent.expired) → s.authorization = none →
      (authenticate s e).2.tokenFile = FileContent.json none) := by
  constructor
  · cases e <;>
      simp [authenticate, hlock, pollerDeliver, on_aborted, on_authenticated,
        on_expired, store_auth]
  · rintro (h | h) hnone <;> subst h <;>
      simp [authenticate, hlock, pollerDeliver, on_aborted, on_expired,
        store_auth, hnone]

/-- Claim C8, witness at a concrete unlocked state with no prior
authorization and the expired event: the file afterwards holds JSON
null. -/
theorem c8_unconditional_store_witness :
    (authenticate (⟨none, FileContent.absent, false, 0, 0⟩ : State Nat)
        AuthEvent.expired).2.tokenFile =
      FileContent.json ((authenticate (⟨none, FileContent.absent, false, 0, 0⟩ :
        State Nat) AuthEvent.expired).2.authorization) ∧
    ((AuthEvent.expired = (AuthEvent.aborted : AuthEvent Nat) ∨
        AuthEvent.expired = (AuthEvent.expired : AuthEvent Nat)) →
      (none : Option Nat) = none →
      (authenticate (⟨none, FileContent.absent, false, 0, 0⟩ : State Nat)
        AuthEvent.expired).2.tokenFile = FileContent.json none) :=
  c8_unconditional_store ⟨none, FileContent.absent, false, 0, 0⟩
    AuthEvent.expired rfl

/-- Claim C9. When the lookup or query produced no matching media object
(None or an empty list), add_show_to_watchlist and add_episode_to_watched
both return the empty dict and issue no mutating request to the external
service, for every season and episode argument and every response of the
external episode and season lookups. -/
theorem c9_no_match_no_add {M E : Type} (show_obj : LookupObj M)
    (season episode : Option Nat) (epi : Option E) (seas : Option (List E))
    (h : show_obj = LookupObj.pyNone ∨ show_obj = LookupObj.pyList []) :
    add_show_to_watchlist (E := E) show_obj = (MethodResult.emptyDict, []) ∧
    add_episode_to_watched show_obj season episode epi seas =
      (MethodResult.emptyDict, []) := by
  rcases h with h | h <;> subst h <;>
    simp [add_show_to_watchlist, add_episode_to_watched]

/-- Claim C9, witness at the concrete empty-list lookup result. -/
theorem c9_no_match_no_add_witness :
    add_show_to_watchlist (E := Nat) (LookupObj.pyList ([] : List Nat)) =
      (MethodResult.emptyDict, []) ∧
    add_episode_to_watched (LookupObj.pyList ([] : List Nat)) (some 2) (some 3)
        (some 77) (none : Option (List Nat)) =
      (MethodResult.emptyDict, []) :=
  c9_no_match_no_add (LookupObj.pyList []) (some 2) (some 3) (some 77) none
    (Or.inr rfl)

end TraktInstance

/-- Looking up a key right after assigning it yields the assigned value:
a later assignment with the same key overwrites an earlier one. -/
theorem dictInsert_lookup (d : List (String × String)) (k v : String) :
    (dictInsert d k v).lookup k = some v := by
  induction d with
  | nil => simp [dictInsert, List.lookup]
  | cons p ds ih =>
    by_cases h : p.1 = k
    · simp [dictInsert, h, List.lookup]
    · have hb : (k == p.1) = false := beq_eq_false_iff_ne.mpr (Ne.symm h)
      have hb2 : (p.1 == k) = false := beq_eq_false_iff_ne.mpr h
      simp [dictInsert, hb2, List.lookup, hb, ih]

/-- The per-line step of read_credentials agrees with the per-line rule of
the claim on every line and every accumulated dict. -/
theorem credStep_eq (d : List (String × String)) (line : String) :
    (let tmp := line.splitOn "="
     if tmp.length > 1 then
       match (tmp.map String.trim).take 2 with
       | [key, val] => dictInsert d key val
       | _ => d
     else d) =
    (match credLineSpec line with
     | some kv => dictInsert d kv.1 kv.2
     | none => d) := by
  rcases h : line.splitOn "=" with _ | ⟨a, _ | ⟨b, rest⟩⟩ <;>
    simp [credLineSpec, h]

/-- Claim C10. For every credentials file, read_credentials equals the
map described by the claim: only lines with at least one equals sign
contribute, each contributing the stripped text before the first equals
sign as key and the stripped text between the first and second as value,
with everything after a second equals sign discarded; and assignment
semantics make a later line with the same key overwrite an earlier one
(looking the key up afterwards yields the later value). -/
theorem c10_read_credentials_spec :
    (∀ lines : List String, read_credentials lines = credentialsSpec lines) ∧
    ∀ (d : List (String × String)) (k v : String),
      (dictInsert d k v).lookup k = some v := by
  refine ⟨fun lines => ?_, dictInsert_lookup⟩
  unfold read_credentials credentialsSpec
  exact List.foldl_ext _ _ _ (fun d line _ => credStep_eq d line)

namespace SyncDb

/-- Every request issued by the first if block of the loop body concerns
the table the block was run for. -/
theorem syncActs0_tableOf (dryRun : Bool) (t m0 m1 : String)
    (acts : List SyncAction) (h : syncActs0 dryRun t m0 m1 = Except.ok acts) :
    ∀ a ∈ acts, tableOf a = t := by
  unfold syncActs0 at h
  split at h
  · split at h
    · cases h
      intro a ha
      simp at ha
      subst ha
      simp [tableOf]
    · split at h
      · cases h
        intro a ha
        simp at ha
        rcases ha with ha | ha <;> subst ha <;> simp [tableOf]
      · cases h
  · cases h
    intro a ha
    cases ha

/-- Every request issued by the second if block of the loop body concerns
the table the block was run for. -/
theorem syncActs1_tableOf (dryRun : Bool) (t m0 m1 : String)
    (acts : List SyncAction) (h : syncActs1 dryRun t m0 m1 = Except.ok acts) :
    ∀ a ∈ acts, tableOf a = t := by
  unfold syncActs1 at h
  split at h
  · split at h
    · cases h
      intro a ha
      simp at ha
      subst ha
      simp [tableOf]
    · split at h
      · cases h
        intro a ha
        simp at ha
        rcases ha with ha | ha <;> subst ha <;> simp [tableOf]
      · cases h
  · cases h
    intro a ha
    cases ha

/-- Every request issued by the loop body for a table concerns that
table. -/
theorem syncTable_tableOf (dryRun : Bool) (t m0 m1 : String)
    (acts : List SyncAction) (h : syncTable dryRun t m0 m1 = Except.ok acts) :
    ∀ a ∈ acts, tableOf a = t := by
  unfold syncTable at h
  rcases h0 : syncActs0 dryRun t m0 m1 with e | a0 <;> rw [h0] at h
  · simp at h
  · rcases h1 : syncActs1 dryRun t m0 m1 with e | a1 <;> rw [h1] at h
    · simp at h
    · simp at h
      intro a ha
      rw [← h] at ha
      rcases List.mem_append.mp ha with ha | ha
      · exact syncActs0_tableOf dryRun t m0 m1 a0 h0 a ha
      · exact syncActs1_tableOf dryRun t m0 m1 a1 h1 a ha

/-- Every request issued while looping over a list of tables concerns one
of those tables. -/
theorem syncTables_tableOf (dryRun : Bool) (d0 d1 : List (String × String)) :
    ∀ (ts : List String) (acts : List SyncAction) (a : SyncAction),
      syncTables dryRun d0 d1 ts = Except.ok acts → a ∈ acts →
      tableOf a ∈ ts := by
  intro ts
  induction ts with
  | nil =>
    intro acts a h ha
    unfold syncTables at h
    simp at h
    subst h
    cases ha
  | cons t ts ih =>
    intro acts a h ha
    unfold syncTables at h
    rcases h0 : syncTable dryRun t ((d0.lookup t).getD "") ((d1.lookup t).getD "")
      with e | a0 <;> rw [h0] at h
    · simp at h
    · rcases h1 : syncTables dryRun d0 d1 ts with e | rest <;> rw [h1] at h
      · simp at h
      · simp at h
        rw [← h] at ha
        rcases List.mem_append.mp ha with ha | ha
        · rw [syncTable_tableOf dryRun t _ _ a0 h0 a ha]
          exact List.mem_cons_self t ts
        · exact List.mem_cons_of_mem t (ih rest a h1 ha)

/-- Claim C6, counterexample. The claim states that when one side has the
strictly newer timestamp the newer records are fetched from the newer side
and written to the older side. On the concrete input where both services
know movie_queue, with timestamps b on service 0 and a on service 1, the
script as shipped (dry_run is hard-coded True at sync_db.py line 28) only
issues the GET for the newer records and performs no POST at all: nothing
is written to the older side. -/
theorem c6_counterexample :
    sync_db dry_run [("movie_queue", "b")] [("movie_queue", "a")] =
      Except.ok [SyncAction.get 0 "movie_queue" "a"] ∧
    ([SyncAction.get 0 "movie_queue" "a"].all
      (fun a => !(SyncAction.isPost a))) = true := by
  have h1 : ("a" : String) < "b" := by
    rw [String.lt_iff_toList_lt]
    decide
  have h2 : ¬("b" : String) < "a" := by
    rw [String.lt_iff_toList_lt]
    decide
  have ha0 : syncActs0 dry_run "movie_queue" "b" "a" =
      Except.ok [SyncAction.get 0 "movie_queue" "a"] := by
    unfold syncActs0
    rw [if_pos h1]
    rfl
  have ha1 : syncActs1 dry_run "movie_queue" "b" "a" = Except.ok [] := by
    unfold syncActs1
    rw [if_neg h2]
  have hst : syncTable dry_run "movie_queue" "b" "a" =
      Except.ok [SyncAction.get 0 "movie_queue" "a"] := by
    unfold syncTable
    rw [ha0, ha1]
    rfl
  refine ⟨?_, rfl⟩
  show (match syncTable dry_run "movie_queue" "b" "a" with
        | Except.error e => Except.error e
        | Except.ok a =>
          match syncTables dry_run [("movie_queue", "b")]
              [("movie_queue", "a")] [] with
          | Except.error e => Except.error e
          | Except.ok rest => Except.ok (a ++ rest)) =
      Except.ok [SyncAction.get 0 "movie_queue" "a"]
  rw [hst]
  rfl

/-- Claim C6, amended. For every table known to both services the loop
body applies newest-wins: when one timestamp is strictly greater, the
records newer than the older timestamp are fetched from the newer side
and, only when the hard-coded dry_run flag is disabled, posted to the
older side under the entry_map payload key; with dry_run as shipped (True)
they are only fetched, never written. When the two timestamps are equal no
request at all is issued for the table. Every request sync_db issues
concerns a table known to both services, so tables known to only one side
are skipped. -/
theorem c6_newest_wins :
    (∀ t m0 m1 key, entry_map.lookup t = some key → m1 < m0 →
      syncTable false t m0 m1 =
        Except.ok [SyncAction.get 0 t m1, SyncAction.post 1 key t]) ∧
    (∀ t m0 m1 key, entry_map.lookup t = some key → m0 < m1 →
      syncTable false t m0 m1 =
        Except.ok [SyncAction.get 1 t m0, SyncAction.post 0 key t]) ∧
    (∀ (b : Bool) (t m : String), syncTable b t m m = Except.ok []) ∧
    (∀ t m0 m1, m1 < m0 →
      syncTable dry_run t m0 m1 = Except.ok [SyncAction.get 0 t m1]) ∧
    (∀ t m0 m1, m0 < m1 →
      syncTable dry_run t m0 m1 = Except.ok [SyncAction.get 1 t m0]) ∧
    (∀ (b : Bool) (lm0 lm1 : List (String × String)) (acts : List SyncAction)
        (a : SyncAction), sync_db b lm0 lm1 = Except.ok acts → a ∈ acts →
      tableOf a ∈ (pyDict lm0).map Prod.fst ∧
      tableOf a ∈ (pyDict lm1).map Prod.fst) := by
  refine ⟨?_, ?_, ?_, ?_, ?_, ?_⟩
  · intro t m0 m1 key hk hlt
    simp [syncTable, syncActs0, syncActs1, hk, hlt, lt_asymm hlt]
  · intro t m0 m1 key hk hlt
    simp [syncTable, syncActs0, syncActs1, hk, hlt, lt_asymm hlt]
  · intro b t m
    simp [syncTable, syncActs0, syncActs1, lt_irrefl]
  · intro t m0 m1 hlt
    simp [syncTable, syncActs0, syncActs1, dry_run, hlt, lt_asymm hlt]
  · intro t m0 m1 hlt
    simp [syncTable, syncActs0, syncActs1, dry_run, hlt, lt_asymm hlt]
  · intro b lm0 lm1 acts a h ha
    have hmem := syncTables_tableOf b (pyDict lm0) (pyDict lm1)
      (((pyDict lm0).map Prod.fst).filter
        (fun t => ((pyDict lm1).map Prod.fst).contains t))
      acts a h ha
    have hf := List.mem_filter.mp hmem
    refine ⟨hf.1, ?_⟩
    simpa using hf.2

/-- Claim C6, witness for the amended theorem: a table known to both
sides, service 0 strictly newer, dry_run disabled. -/
theorem c6_newest_wins_witness :
    syncTable false "imdb_ratings" "b" "a" =
      Except.ok [SyncAction.get 0 "imdb_ratings" "a",
                 SyncAction.post 1 "shows" "imdb_ratings"] :=
  c6_newest_wins.1 "imdb_ratings" "b" "a" "shows" rfl
    (by rw [String.lt_iff_toList_lt]; decide)

end SyncDb
